import Mathlib

/-!
Verification of the Skybound data-card programming core of jdmtool
(`src/jdmtool/data_card.py`, class `SkyboundDevice` and the session helpers).

The device code is embedded shallowly: protocol commands become pure Lean
functions over explicit response oracles, and the bulk operations become
fuel-based recursions producing an explicit event trace together with an
`Except` outcome, mirroring the Python control flow (including the points
at which exceptions are raised and which side effects have already
happened by then).
-/

namespace JdmTool

/-- `SkyboundDevice.MEMORY_OFFSETS` from the source. -/
def MEMORY_OFFSETS : List Nat :=
  [0x00E0, 0x02E0, 0x0160, 0x0360, 0x01A0, 0x03A0, 0x01C0, 0x03C0]

/-- `SkyboundDevice.PAGES_PER_OFFSET`. -/
def PAGES_PER_OFFSET : Nat := 0x20

/-- `ProgrammingDevice.BLOCK_SIZE`. -/
def BLOCK_SIZE : Nat := 0x1000

/-- `ProgrammingDevice.BLOCKS_PER_PAGE`. -/
def BLOCKS_PER_PAGE : Nat := 0x10

/-- `ProgrammingDevice.PAGE_SIZE`. -/
def PAGE_SIZE : Nat := BLOCK_SIZE * BLOCKS_PER_PAGE

/-- `SkyboundDevice.MEMORY_LAYOUT_UNKNOWN`. -/
def MEMORY_LAYOUT_UNKNOWN : List Nat := [0]

/-- `SkyboundDevice.MEMORY_LAYOUT_4MB`. -/
def MEMORY_LAYOUT_4MB : List Nat := [0, 2]

/-- `SkyboundDevice.MEMORY_LAYOUT_16MB`. -/
def MEMORY_LAYOUT_16MB : List Nat := [0, 1, 2, 3, 4, 5, 6, 7]

/-- `SkyboundDevice.get_total_pages`: `len(self.memory_layout) * PAGES_PER_OFFSET`. -/
def get_total_pages (layout : List Nat) : Nat := layout.length * PAGES_PER_OFFSET

/-- The exception classes the embedded code can raise.  `ProgrammingException`
variants carry the distinguishing context; `valueError` and `indexError` stand
for Python's `ValueError` and `IndexError`. -/
inductive PErr where
  | cardDisappeared
  | cardMissing
  | unexpectedResponse
  | verificationFailed (block : Nat)
  | unknownIid (iid : Nat)
  | valueError
  | indexError
deriving Repr, DecidableEq

/-- `SkyboundDevice.translate_page`:
`offset_id = self.memory_layout[page_id // PAGES_PER_OFFSET];
 return MEMORY_OFFSETS[offset_id] + page_id % PAGES_PER_OFFSET`.
Out-of-range indexing (Python `IndexError`) is `none`. -/
def translate_page (layout : List Nat) (page_id : Nat) : Option Nat :=
  match layout[page_id / PAGES_PER_OFFSET]? with
  | none => none
  | some offset_id =>
    match MEMORY_OFFSETS[offset_id]? with
    | none => none
    | some off => some (off + page_id % PAGES_PER_OFFSET)

/-- `SkyboundDevice.select_physical_page`: rejects a page id above `0xFFFF`
(the lower bound `0 <= page_id` is automatic for `Nat`), otherwise sends the
5-byte command frame `0x30 0x00 0x00` + little-endian page id. -/
def select_physical_page (page_id : Nat) : Except PErr (List Nat) :=
  if page_id ≤ 0xFFFF then
    .ok [0x30, 0x00, 0x00, page_id % 0x100, page_id / 0x100 % 0x100]
  else
    .error .valueError

/-- `SkyboundDevice.select_page` as a pure computation: translate the logical
page and run the `select_physical_page` bound check, returning the physical
page id that was selected. -/
def select_page_chk (layout : List Nat) (page_id : Nat) : Except PErr Nat :=
  match translate_page layout page_id with
  | none => .error .indexError
  | some phys =>
    match select_physical_page phys with
    | .error e => .error e
    | .ok _ => .ok phys

/-- Decidable in-range test for one logical page: its 0x20-page group is inside
the layout and the layout entry indexes `MEMORY_OFFSETS` (which has 8 entries). -/
def layout_okb (layout : List Nat) (page_id : Nat) : Bool :=
  match layout[page_id / PAGES_PER_OFFSET]? with
  | none => false
  | some offset_id => offset_id < 8

lemma mem_offsets_le (v : Nat) (hv : v ∈ MEMORY_OFFSETS) : v ≤ 0x3C0 := by
  fin_cases hv <;> decide

lemma offsets_getElem_le (oid : Nat) (off : Nat)
    (h : MEMORY_OFFSETS[oid]? = some off) : off ≤ 0x3C0 :=
  mem_offsets_le off (List.getElem?_mem h)

lemma translate_page_of_ok (layout : List Nat) (p oid : Nat)
    (h1 : layout[p / PAGES_PER_OFFSET]? = some oid) (h2 : oid < 8) :
    translate_page layout p = some ((MEMORY_OFFSETS[oid]?).getD 0 + p % PAGES_PER_OFFSET) := by
  have hlen : oid < MEMORY_OFFSETS.length := by
    simpa [MEMORY_OFFSETS] using h2
  have hoff : MEMORY_OFFSETS[oid]? = some MEMORY_OFFSETS[oid] :=
    List.getElem?_eq_getElem hlen
  simp [translate_page, h1, hoff]

lemma translate_page_le (layout : List Nat) (p t : Nat)
    (h : translate_page layout p = some t) : t ≤ 0x3DF := by
  unfold translate_page at h
  cases h1 : layout[p / PAGES_PER_OFFSET]? with
  | none => simp [h1] at h
  | some oid =>
    cases h2 : MEMORY_OFFSETS[oid]? with
    | none => simp [h1, h2] at h
    | some off =>
      simp only [h1, h2, Option.some.injEq] at h
      have hoff := offsets_getElem_le oid off h2
      have hmod : p % PAGES_PER_OFFSET < 32 := Nat.mod_lt _ (by decide)
      omega

lemma select_page_chk_of_okb (layout : List Nat) (p : Nat)
    (h : layout_okb layout p = true) :
    ∃ t, translate_page layout p = some t ∧ t ≤ 0x3DF ∧
      select_page_chk layout p = .ok t := by
  unfold layout_okb at h
  cases h1 : layout[p / PAGES_PER_OFFSET]? with
  | none => rw [h1] at h; exact absurd h (by simp)
  | some oid =>
    rw [h1] at h
    have h2 : oid < 8 := by simpa using h
    have ht := translate_page_of_ok layout p oid h1 h2
    refine ⟨_, ht, translate_page_le layout p _ ht, ?_⟩
    have hle : (MEMORY_OFFSETS[oid]?).getD 0 + p % PAGES_PER_OFFSET ≤ 0xFFFF :=
      Nat.le_trans (translate_page_le layout p _ ht) (by norm_num)
    simp only [select_page_chk, ht, select_physical_page, if_pos hle]

/-- Claim C1: page translation is a pure function of the layout and page index:
whenever `p / 32` is inside the layout and the layout entry is below 8,
`translate_page` returns `MEMORY_OFFSETS[layout[p / 32]] + p % 32`, and any
value it returns is at most 0xFFFF. -/
theorem claim_C1_translate_page (layout : List Nat) (p oid : Nat)
    (h1 : layout[p / PAGES_PER_OFFSET]? = some oid) (h2 : oid < 8) :
    translate_page layout p
      = some ((MEMORY_OFFSETS[oid]?).getD 0 + p % PAGES_PER_OFFSET) ∧
    (MEMORY_OFFSETS[oid]?).getD 0 + p % PAGES_PER_OFFSET ≤ 0xFFFF ∧
    ∀ layout2 p2 t, translate_page layout2 p2 = some t → t ≤ 0xFFFF := by
  have ht := translate_page_of_ok layout p oid h1 h2
  refine ⟨ht, ?_, fun layout2 p2 t h =>
    Nat.le_trans (translate_page_le layout2 p2 t h) (by norm_num)⟩
  exact Nat.le_trans (translate_page_le layout p _ ht) (by norm_num)

/-- Witness for C1 at the 4MB layout, page 33 (group 1, offset index 2). -/
theorem claim_C1_translate_page_witness :
    MEMORY_LAYOUT_4MB[33 / PAGES_PER_OFFSET]? = some 2 ∧
    translate_page MEMORY_LAYOUT_4MB 33 = some 0x161 := by
  refine ⟨by decide, ?_⟩
  have h := (claim_C1_translate_page MEMORY_LAYOUT_4MB 33 2 (by decide) (by decide)).1
  simpa using h

/-- Bool form of the C10 in-range property for one page: translation succeeds,
lands in `[0x00E0, 0x03DF]`, and passes the `select_physical_page` bound check. -/
def translate_in_range (layout : List Nat) (p : Nat) : Bool :=
  match translate_page layout p with
  | none => false
  | some t =>
    decide (0x00E0 ≤ t) && decide (t ≤ 0x03DF) &&
      (match select_physical_page t with
       | .ok _ => true
       | .error _ => false)

set_option maxRecDepth 4000 in
/-- Claim C10: for both recognized layouts and every in-range logical page,
the translated physical address lies in `[0x00E0, 0x03DF]`, so `select_page`
never reaches the invalid-page-id error branch of `select_physical_page`. -/
theorem claim_C10_translate_in_range :
    (∀ p, p < get_total_pages MEMORY_LAYOUT_4MB →
      translate_in_range MEMORY_LAYOUT_4MB p = true) ∧
    (∀ p, p < get_total_pages MEMORY_LAYOUT_16MB →
      translate_in_range MEMORY_LAYOUT_16MB p = true) := by
  constructor
  · decide
  · decide

/-- Witness for C10 at the last page of each layout. -/
theorem claim_C10_translate_in_range_witness :
    (63 < get_total_pages MEMORY_LAYOUT_4MB ∧
      translate_in_range MEMORY_LAYOUT_4MB 63 = true) ∧
    (255 < get_total_pages MEMORY_LAYOUT_16MB ∧
      translate_in_range MEMORY_LAYOUT_16MB 255 = true) :=
  ⟨⟨by decide, claim_C10_translate_in_range.1 63 (by decide)⟩,
   ⟨by decide, claim_C10_translate_in_range.2 255 (by decide)⟩⟩

/-- Transport-level events: `BasicUsbDevice.write` (a bulk write of concrete
bytes) and `BasicUsbDevice.read` (a bulk read with its requested length and
the response the device produced). -/
inductive TEv where
  | bulkWrite (data : List Nat)
  | bulkRead (reqLen : Nat) (resp : List Nat)
deriving Repr, DecidableEq

/-- The response validation inside `SkyboundDevice.write_block`: Python raises
unless `buf[0] == data[-1]` and `buf[1:] == b"\x00\x00\x00"`; on an empty
response `buf[0]` itself raises `IndexError`. -/
def write_block_check (data resp : List Nat) : Except PErr Unit :=
  match resp with
  | [] => .error .indexError
  | r0 :: rest =>
    if r0 = data.getLastD 0 ∧ rest = [0x00, 0x00, 0x00] then .ok ()
    else .error .unexpectedResponse

/-- `SkyboundDevice.write_block` at the transport level: the 4096-byte length
check runs before any transport call; then the opcode `0x2A 0x04`, the payload,
and a read of up to 0x40 bytes are issued and the response is validated.
`resp` is the device's answer to that read. -/
def write_block (data resp : List Nat) : List TEv × Except PErr Unit :=
  if data.length = BLOCK_SIZE then
    ([.bulkWrite [0x2A, 0x04], .bulkWrite data, .bulkRead 0x40 resp],
     write_block_check data resp)
  else
    ([], .error .valueError)

/-- Claim C7: for every input shorter than 4096 bytes, `write_block` raises
the invalid-argument error (Python `ValueError`) and its transport trace is
empty, i.e. the error precedes any `Transport` write or read call. -/
theorem claim_C7_write_block_short (data resp : List Nat)
    (h : data.length < BLOCK_SIZE) :
    write_block data resp = ([], .error .valueError) := by
  unfold write_block
  rw [if_neg (Nat.ne_of_lt h)]

/-- Witness for C7 at the empty input. -/
theorem claim_C7_write_block_short_witness :
    ([] : List Nat).length < BLOCK_SIZE ∧
    write_block [] [] = ([], .error .valueError) :=
  ⟨by decide, claim_C7_write_block_short [] [] (by decide)⟩

lemma replicate_getLastD (n : Nat) (x : Nat) :
    ∀ d, (List.replicate (n + 1) x).getLastD d = x := by
  induction n with
  | zero => intro d; rfl
  | succ n ih =>
    intro d
    rw [List.replicate_succ, List.getLastD_cons]
    exact ih x

lemma write_block_snd (data resp : List Nat) (h : data.length = BLOCK_SIZE) :
    (write_block data resp).2 = write_block_check data resp := by
  unfold write_block
  rw [if_pos h]

lemma write_block_check_ok_iff (data resp : List Nat) :
    write_block_check data resp = .ok ()
      ↔ resp = data.getLastD 0 :: [0x00, 0x00, 0x00] := by
  cases resp with
  | nil => simp [write_block_check]
  | cons r0 rest =>
    simp only [write_block_check, List.cons.injEq]
    by_cases hc : r0 = data.getLastD 0 ∧ rest = [0x00, 0x00, 0x00]
    · simp [hc.1, hc.2]
    · rw [if_neg hc]
      constructor
      · intro hx; exact absurd hx (by simp)
      · intro hx; exact absurd hx hc

/-- Counterexample to claim C8 as stated: a 64-byte status response whose
byte 0 equals the last data byte and whose bytes 1..3 are zero satisfies the
claim's success condition, yet the code raises (because it compares the whole
tail `buf[1:]` against exactly three zero bytes). -/
theorem claim_C8_counterexample :
    (List.replicate 0x40 0x00).length = 0x40 ∧
    (List.replicate 0x40 0x00).head?
      = some ((List.replicate BLOCK_SIZE 0x00).getLastD 0) ∧
    ((List.replicate 0x40 0x00).drop 1).take 3 = [0x00, 0x00, 0x00] ∧
    (write_block (List.replicate BLOCK_SIZE 0x00) (List.replicate 0x40 0x00)).2
      = .error .unexpectedResponse := by
  have hrep : BLOCK_SIZE = 4095 + 1 := by norm_num [BLOCK_SIZE]
  have hlast : (List.replicate BLOCK_SIZE (0x00 : Nat)).getLastD 0 = 0x00 := by
    rw [hrep, replicate_getLastD]
  refine ⟨by decide, ?_, by decide, ?_⟩
  · rw [hlast]; decide
  · have hlen : (List.replicate BLOCK_SIZE (0x00 : Nat)).length = BLOCK_SIZE :=
      List.length_replicate _ _
    have h64 : List.replicate 0x40 (0x00 : Nat) = 0x00 :: List.replicate 0x3F 0x00 := by
      decide
    rw [write_block_snd _ _ hlen, h64]
    simp only [write_block_check]
    rw [if_neg]
    intro hx
    exact absurd hx.2 (by decide)

/-- Claim C8 as amended: for every 4096-byte `data`, `write_block` sends the
opcode `0x2A 0x04` followed by the payload and issues a read of up to 64
bytes; it succeeds exactly when the response is the four bytes
`data[-1] 0x00 0x00 0x00` (so a longer response, even one whose first four
bytes match, is a fatal protocol error). -/
theorem claim_C8_write_block_response (data resp : List Nat)
    (h : data.length = BLOCK_SIZE) :
    (write_block data resp).1
      = [.bulkWrite [0x2A, 0x04], .bulkWrite data, .bulkRead 0x40 resp] ∧
    ((write_block data resp).2 = .ok ()
      ↔ resp = data.getLastD 0 :: [0x00, 0x00, 0x00]) := by
  unfold write_block
  rw [if_pos h]
  exact ⟨rfl, write_block_check_ok_iff data resp⟩

/-- Witness for the amended C8 at a concrete block and the expected response. -/
theorem claim_C8_write_block_response_witness :
    (List.replicate BLOCK_SIZE 0x55).length = BLOCK_SIZE ∧
    ((write_block (List.replicate BLOCK_SIZE 0x55) [0x55, 0x00, 0x00, 0x00]).2
      = .ok ()
      ↔ [0x55, 0x00, 0x00, 0x00]
          = (List.replicate BLOCK_SIZE 0x55).getLastD 0 :: [0x00, 0x00, 0x00]) :=
  ⟨List.length_replicate _ _,
   (claim_C8_write_block_response (List.replicate BLOCK_SIZE 0x55)
      [0x55, 0x00, 0x00, 0x00] (List.length_replicate _ _)).2⟩

/-- Protocol-engine level events of a bulk operation.  Each constructor
corresponds to one observable action of the Python code: `setLed` and
`hasCard` to `_loop_helper`, `selectPage` to a successful `select_page`
(recorded with its logical page; the byte encoding is `select_physical_page`),
`readBlock`/`writeBlock`/`erasePage` to the block-level device commands,
`fdWrite`/`fdRead` to the output/input stream, `progress` to `progress_cb`. -/
inductive Ev where
  | setLed (b : Bool)
  | hasCard (resp : List Nat)
  | beforeRead
  | beforeWrite
  | selectPage (page : Nat)
  | readBlock (data : List Nat)
  | writeBlock (data : List Nat)
  | erasePage
  | fdWrite (data : List Nat)
  | fdRead (data : List Nat)
  | progress (n : Nat)
deriving Repr, DecidableEq

/-- Response oracles for one bulk operation: `cardResp i` is the device's
answer to the `has_card` query of iteration `i`, `block i` the data returned
by the `read_block` of iteration `i`, `writeResp i` the status answer to the
`write_block` of iteration `i`, and `eraseResp n` the answer to the `n`-th
`erase_page` call (call 0 is the last-page erase of `erase_database`). -/
structure Dev where
  cardResp : Nat → List Nat
  block : Nat → List Nat
  writeResp : Nat → List Nat
  eraseResp : Nat → List Nat

/-- `SkyboundDevice.has_card`: response `b"\x00"` means present, `b"\x01"`
absent, anything else raises. -/
def has_card (resp : List Nat) : Except PErr Bool :=
  if resp = [0x00] then .ok true
  else if resp = [0x01] then .ok false
  else .error .unexpectedResponse

/-- Python `bytes.ljust(n, fill)`: right-pad to length `n` (a no-op when the
input is already at least that long). -/
def ljust (b : List Nat) (n fill : Nat) : List Nat :=
  b ++ List.replicate (n - b.length) fill

/-- The all-`0xFF` block, `b"\xFF" * BLOCK_SIZE`. -/
def ffBlock : List Nat := List.replicate BLOCK_SIZE 0xFF

/-- The response validation of `SkyboundDevice.erase_page`: must be `b"\x04"`. -/
def erase_page_chk (resp : List Nat) : Except PErr Unit :=
  if resp = [0x04] then .ok () else .error .unexpectedResponse

/-- `SkyboundDevice._loop_helper`: toggle the LED by the parity of `i`, then
query card presence (the events; the outcome is decoded by `has_card`). -/
def loop_helper_evs (d : Dev) (i : Nat) : List Ev :=
  [.setLed (i % 2 == 0), .hasCard (d.cardResp i)]

/-- One `select_page` call: on success the logical page is recorded as a
`selectPage` event; a translation failure (`IndexError`) or out-of-range
physical id raises before the command frame is sent. -/
def select_page_ev (layout : List Nat) (page : Nat) : Except PErr (List Ev) :=
  match select_page_chk layout page with
  | .error e => .error e
  | .ok _ => .ok [.selectPage page]

/-- `write_block` as seen at the protocol-event level inside `write_database`:
the same length check and response validation as the transport-level
`write_block`, with the payload recorded as one `writeBlock` event. -/
def write_block_ev (data resp : List Nat) : List Ev × Except PErr Unit :=
  if data.length = BLOCK_SIZE then ([.writeBlock data], write_block_check data resp)
  else ([], .error .valueError)

/-- The loop of `SkyboundDevice.read_database` from iteration `i` with `fuel`
iterations remaining: per iteration `_loop_helper`, a `select_page` at each
16-block boundary, one `read_block`, early stop on an all-`0xFF` block,
otherwise write the block to the output stream and report progress. -/
def read_database_from (layout : List Nat) (d : Dev) : Nat → Nat → List Ev × Except PErr Unit
  | _, 0 => ([], .ok ())
  | i, fuel + 1 =>
    let le := loop_helper_evs d i
    match has_card (d.cardResp i) with
    | .error e => (le, .error e)
    | .ok false => (le, .error .cardDisappeared)
    | .ok true =>
      match (if i % BLOCKS_PER_PAGE == 0 then
              select_page_ev layout (i / BLOCKS_PER_PAGE) else .ok []) with
      | .error e => (le, .error e)
      | .ok sel =>
        let b := d.block i
        if b = ffBlock then (le ++ sel ++ [.readBlock b], .ok ())
        else
          let rest := read_database_from layout d (i + 1) fuel
          (le ++ sel ++ [.readBlock b, .fdWrite b, .progress b.length] ++ rest.1, rest.2)

/-- `SkyboundDevice.read_database`: `before_read` once, then the loop over
`pages * BLOCKS_PER_PAGE` blocks. -/
def read_database (layout : List Nat) (d : Dev) (pages : Nat) :
    List Ev × Except PErr Unit :=
  let r := read_database_from layout d 0 (pages * BLOCKS_PER_PAGE)
  (Ev.beforeRead :: r.1, r.2)

/-- The loop of `SkyboundDevice.write_database` from iteration `i`: per
iteration the source stream is read and padded first, then `_loop_helper`,
a `select_page` at each 16-block boundary, one `write_block`, and progress. -/
def write_database_from (layout : List Nat) (d : Dev) (fd : Nat → List Nat) :
    Nat → Nat → List Ev × Except PErr Unit
  | _, 0 => ([], .ok ())
  | i, fuel + 1 =>
    let blk := ljust (fd i) BLOCK_SIZE 0xFF
    let le := Ev.fdRead (fd i) :: loop_helper_evs d i
    match has_card (d.cardResp i) with
    | .error e => (le, .error e)
    | .ok false => (le, .error .cardDisappeared)
    | .ok true =>
      match (if i % BLOCKS_PER_PAGE == 0 then
              select_page_ev layout (i / BLOCKS_PER_PAGE) else .ok []) with
      | .error e => (le, .error e)
      | .ok sel =>
        let wr := write_block_ev blk (d.writeResp i)
        match wr.2 with
        | .error e => (le ++ sel ++ wr.1, .error e)
        | .ok _ =>
          let rest := write_database_from layout d fd (i + 1) fuel
          (le ++ sel ++ wr.1 ++ [.progress blk.length] ++ rest.1, rest.2)

/-- `SkyboundDevice.write_database`: `before_write` once, then the loop. -/
def write_database (layout : List Nat) (d : Dev) (fd : Nat → List Nat)
    (pages : Nat) : List Ev × Except PErr Unit :=
  let r := write_database_from layout d fd 0 (pages * BLOCKS_PER_PAGE)
  (Ev.beforeWrite :: r.1, r.2)

/-- The loop of `SkyboundDevice.verify_database` from iteration `i`: per
iteration the source stream is read and padded first, then `_loop_helper`,
a `select_page` at each 16-block boundary, one `read_block`, and a
byte-for-byte comparison that raises with the block index on mismatch. -/
def verify_database_from (layout : List Nat) (d : Dev) (fd : Nat → List Nat) :
    Nat → Nat → List Ev × Except PErr Unit
  | _, 0 => ([], .ok ())
  | i, fuel + 1 =>
    let fblk := ljust (fd i) BLOCK_SIZE 0xFF
    let le := Ev.fdRead (fd i) :: loop_helper_evs d i
    match has_card (d.cardResp i) with
    | .error e => (le, .error e)
    | .ok false => (le, .error .cardDisappeared)
    | .ok true =>
      match (if i % BLOCKS_PER_PAGE == 0 then
              select_page_ev layout (i / BLOCKS_PER_PAGE) else .ok []) with
      | .error e => (le, .error e)
      | .ok sel =>
        let cblk := d.block i
        if cblk = fblk then
          let rest := verify_database_from layout d fd (i + 1) fuel
          (le ++ sel ++ [.readBlock cblk, .progress fblk.length] ++ rest.1, rest.2)
        else
          (le ++ sel ++ [.readBlock cblk], .error (.verificationFailed i))

/-- `SkyboundDevice.verify_database`: `before_read` once, then the loop. -/
def verify_database (layout : List Nat) (d : Dev) (fd : Nat → List Nat)
    (pages : Nat) : List Ev × Except PErr Unit :=
  let r := verify_database_from layout d fd 0 (pages * BLOCKS_PER_PAGE)
  (Ev.beforeRead :: r.1, r.2)

/-- The loop of `SkyboundDevice.erase_database` from iteration `i`: per
iteration `_loop_helper`, `select_page(i)`, one `erase_page` (the `i + 1`-th
erase call, call 0 being the initial last-page erase), and progress. -/
def erase_database_from (layout : List Nat) (d : Dev) :
    Nat → Nat → List Ev × Except PErr Unit
  | _, 0 => ([], .ok ())
  | i, fuel + 1 =>
    let le := loop_helper_evs d i
    match has_card (d.cardResp i) with
    | .error e => (le, .error e)
    | .ok false => (le, .error .cardDisappeared)
    | .ok true =>
      match select_page_ev layout i with
      | .error e => (le, .error e)
      | .ok sel =>
        match erase_page_chk (d.eraseResp (i + 1)) with
        | .error e => (le ++ sel ++ [.erasePage], .error e)
        | .ok _ =>
          let rest := erase_database_from layout d (i + 1) fuel
          (le ++ sel ++ [.erasePage, .progress PAGE_SIZE] ++ rest.1, rest.2)

/-- `SkyboundDevice.erase_database`: `before_write` once, then a
`select_page`/`erase_page` of the card's last page (`get_total_pages() - 1`),
then the loop over pages `0..pages-1`. -/
def erase_database (layout : List Nat) (d : Dev) (pages : Nat) :
    List Ev × Except PErr Unit :=
  match select_page_ev layout (get_total_pages layout - 1) with
  | .error e => ([Ev.beforeWrite], .error e)
  | .ok sel =>
    match erase_page_chk (d.eraseResp 0) with
    | .error e => (Ev.beforeWrite :: sel ++ [.erasePage], .error e)
    | .ok _ =>
      let r := erase_database_from layout d 0 pages
      (Ev.beforeWrite :: sel ++ [.erasePage] ++ r.1, r.2)

/-- Events that perform device block I/O: a block read, a block write, or a
page erase. -/
def isBlockOp : Ev → Bool
  | .readBlock _ => true
  | .writeBlock _ => true
  | .erasePage => true
  | _ => false

/-- Events that query card presence. -/
def isCardQuery : Ev → Bool
  | .hasCard _ => true
  | _ => false

/-- The logical pages passed to `select_page`, in trace order. -/
def selectArgs (t : List Ev) : List Nat :=
  t.filterMap fun e => match e with | .selectPage p => some p | _ => none

/-- The blocks written to the output stream, in trace order. -/
def fdWrites (t : List Ev) : List (List Nat) :=
  t.filterMap fun e => match e with | .fdWrite b => some b | _ => none

/-- At every point of the trace, the number of block I/O commands so far never
exceeds the number of card-presence checks so far plus `slack`: every
iteration's block I/O is preceded by that iteration's check. -/
def cardChecksCoverBlockOps (slack : Nat) (t : List Ev) : Prop :=
  ∀ n, (t.take n).countP isBlockOp ≤ (t.take n).countP isCardQuery + slack

/-- The events of one completed `read_database` iteration. -/
def read_iter (d : Dev) (i : Nat) : List Ev :=
  loop_helper_evs d i
    ++ (if i % BLOCKS_PER_PAGE == 0 then [Ev.selectPage (i / BLOCKS_PER_PAGE)] else [])
    ++ [.readBlock (d.block i), .fdWrite (d.block i), .progress (d.block i).length]

/-- The events of one completed `write_database` iteration. -/
def write_iter (d : Dev) (fd : Nat → List Nat) (i : Nat) : List Ev :=
  (Ev.fdRead (fd i) :: loop_helper_evs d i)
    ++ (if i % BLOCKS_PER_PAGE == 0 then [Ev.selectPage (i / BLOCKS_PER_PAGE)] else [])
    ++ [.writeBlock (ljust (fd i) BLOCK_SIZE 0xFF),
        .progress (ljust (fd i) BLOCK_SIZE 0xFF).length]

/-- The events of one completed `verify_database` iteration. -/
def verify_iter (d : Dev) (fd : Nat → List Nat) (i : Nat) : List Ev :=
  (Ev.fdRead (fd i) :: loop_helper_evs d i)
    ++ (if i % BLOCKS_PER_PAGE == 0 then [Ev.selectPage (i / BLOCKS_PER_PAGE)] else [])
    ++ [.readBlock (d.block i), .progress (ljust (fd i) BLOCK_SIZE 0xFF).length]

/-- The events of one completed `erase_database` iteration. -/
def erase_iter (d : Dev) (i : Nat) : List Ev :=
  loop_helper_evs d i ++ [Ev.selectPage i, .erasePage, .progress PAGE_SIZE]

lemma has_card_present : has_card [0x00] = .ok true := rfl

lemma has_card_absent : has_card [0x01] = .ok false := rfl

lemma select_page_ev_ok (layout : List Nat) (p : Nat)
    (h : layout_okb layout p = true) :
    select_page_ev layout p = .ok [.selectPage p] := by
  obtain ⟨t, _, _, hsel⟩ := select_page_chk_of_okb layout p h
  simp [select_page_ev, hsel]

lemma sel_if_eq (layout : List Nat) (i : Nat)
    (h : layout_okb layout (i / BLOCKS_PER_PAGE) = true) :
    (if i % BLOCKS_PER_PAGE == 0 then
        select_page_ev layout (i / BLOCKS_PER_PAGE) else .ok ([] : List Ev))
      = .ok (if i % BLOCKS_PER_PAGE == 0 then
              [Ev.selectPage (i / BLOCKS_PER_PAGE)] else []) := by
  cases h16 : (i % BLOCKS_PER_PAGE == 0) <;>
    simp [h16, select_page_ev_ok layout _ h]

lemma read_database_from_run (layout : List Nat) (d : Dev) (n : Nat) :
    ∀ i fuel,
      (∀ j, i ≤ j → j < i + n → d.cardResp j = [0x00]) →
      (∀ j, i ≤ j → j < i + n → d.block j ≠ ffBlock) →
      (∀ j, i ≤ j → j < i + n → layout_okb layout (j / BLOCKS_PER_PAGE) = true) →
      read_database_from layout d i (n + fuel)
        = ((List.range' i n).flatMap (read_iter d)
            ++ (read_database_from layout d (i + n) fuel).1,
           (read_database_from layout d (i + n) fuel).2) := by
  induction n with
  | zero =>
    intro i fuel _ _ _
    simp [List.range']
  | succ n ih =>
    intro i fuel hc hb hl
    have hci : d.cardResp i = [0x00] := hc i le_rfl (by omega)
    have hbi : d.block i ≠ ffBlock := hb i le_rfl (by omega)
    have hli : layout_okb layout (i / BLOCKS_PER_PAGE) = true := hl i le_rfl (by omega)
    have hstep : n + 1 + fuel = (n + fuel) + 1 := by omega
    have hrec := ih (i + 1) fuel
      (fun j h1 h2 => hc j (by omega) (by omega))
      (fun j h1 h2 => hb j (by omega) (by omega))
      (fun j h1 h2 => hl j (by omega) (by omega))
    rw [hstep]
    simp only [read_database_from, hci, has_card_present, sel_if_eq layout i hli]
    rw [if_neg hbi, hrec]
    have h1n : i + 1 + n = i + (n + 1) := by omega
    have hrange : List.range' i (n + 1) = i :: List.range' (i + 1) n :=
      List.range'_succ i n 1
    rw [h1n, hrange]
    simp [read_iter, loop_helper_evs, List.append_assoc]

lemma ljust_length (b : List Nat) (n fill : Nat) (h : b.length ≤ n) :
    (ljust b n fill).length = n := by
  simp only [ljust, List.length_append, List.length_replicate]
  omega

lemma write_block_ev_ok (blk resp : List Nat) (hlen : blk.length = BLOCK_SIZE)
    (hresp : resp = blk.getLastD 0 :: [0x00, 0x00, 0x00]) :
    write_block_ev blk resp = ([.writeBlock blk], .ok ()) := by
  unfold write_block_ev
  rw [if_pos hlen, (write_block_check_ok_iff blk resp).mpr hresp]

lemma erase_page_chk_ok : erase_page_chk [0x04] = .ok () := rfl

lemma write_database_from_run (layout : List Nat) (d : Dev)
    (fd : Nat → List Nat) (n : Nat) :
    ∀ i fuel,
      (∀ j, i ≤ j → j < i + n → d.cardResp j = [0x00]) →
      (∀ j, i ≤ j → j < i + n → (fd j).length ≤ BLOCK_SIZE) →
      (∀ j, i ≤ j → j < i + n →
        d.writeResp j = (ljust (fd j) BLOCK_SIZE 0xFF).getLastD 0 :: [0x00, 0x00, 0x00]) →
      (∀ j, i ≤ j → j < i + n → layout_okb layout (j / BLOCKS_PER_PAGE) = true) →
      write_database_from layout d fd i (n + fuel)
        = ((List.range' i n).flatMap (write_iter d fd)
            ++ (write_database_from layout d fd (i + n) fuel).1,
           (write_database_from layout d fd (i + n) fuel).2) := by
  induction n with
  | zero =>
    intro i fuel _ _ _ _
    simp [List.range']
  | succ n ih =>
    intro i fuel hc hf hw hl
    have hci : d.cardResp i = [0x00] := hc i le_rfl (by omega)
    have hfi : (fd i).length ≤ BLOCK_SIZE := hf i le_rfl (by omega)
    have hwi := hw i le_rfl (by omega)
    have hli : layout_okb layout (i / BLOCKS_PER_PAGE) = true := hl i le_rfl (by omega)
    have hstep : n + 1 + fuel = (n + fuel) + 1 := by omega
    have hrec := ih (i + 1) fuel
      (fun j h1 h2 => hc j (by omega) (by omega))
      (fun j h1 h2 => hf j (by omega) (by omega))
      (fun j h1 h2 => hw j (by omega) (by omega))
      (fun j h1 h2 => hl j (by omega) (by omega))
    rw [hstep]
    simp only [write_database_from, hci, has_card_present, sel_if_eq layout i hli,
      write_block_ev_ok _ _ (ljust_length _ _ _ hfi) hwi]
    rw [hrec]
    have h1n : i + 1 + n = i + (n + 1) := by omega
    have hrange : List.range' i (n + 1) = i :: List.range' (i + 1) n :=
      List.range'_succ i n 1
    rw [h1n, hrange]
    simp [write_iter, loop_helper_evs, List.append_assoc]

lemma verify_database_from_run (layout : List Nat) (d : Dev)
    (fd : Nat → List Nat) (n : Nat) :
    ∀ i fuel,
      (∀ j, i ≤ j → j < i + n → d.cardResp j = [0x00]) →
      (∀ j, i ≤ j → j < i + n → d.block j = ljust (fd j) BLOCK_SIZE 0xFF) →
      (∀ j, i ≤ j → j < i + n → layout_okb layout (j / BLOCKS_PER_PAGE) = true) →
      verify_database_from layout d fd i (n + fuel)
        = ((List.range' i n).flatMap (verify_iter d fd)
            ++ (verify_database_from layout d fd (i + n) fuel).1,
           (verify_database_from layout d fd (i + n) fuel).2) := by
  induction n with
  | zero =>
    intro i fuel _ _ _
    simp [List.range']
  | succ n ih =>
    intro i fuel hc hv hl
    have hci : d.cardResp i = [0x00] := hc i le_rfl (by omega)
    have hvi := hv i le_rfl (by omega)
    have hli : layout_okb layout (i / BLOCKS_PER_PAGE) = true := hl i le_rfl (by omega)
    have hstep : n + 1 + fuel = (n + fuel) + 1 := by omega
    have hrec := ih (i + 1) fuel
      (fun j h1 h2 => hc j (by omega) (by omega))
      (fun j h1 h2 => hv j (by omega) (by omega))
      (fun j h1 h2 => hl j (by omega) (by omega))
    rw [hstep]
    simp only [verify_database_from, hci, has_card_present, sel_if_eq layout i hli]
    rw [if_pos hvi, hrec]
    have h1n : i + 1 + n = i + (n + 1) := by omega
    have hrange : List.range' i (n + 1) = i :: List.range' (i + 1) n :=
      List.range'_succ i n 1
    rw [h1n, hrange]
    simp [verify_iter, loop_helper_evs, hvi, List.append_assoc]

lemma erase_database_from_run (layout : List Nat) (d : Dev) (n : Nat) :
    ∀ i fuel,
      (∀ j, i ≤ j → j < i + n → d.cardResp j = [0x00]) →
      (∀ j, i ≤ j → j < i + n → d.eraseResp (j + 1) = [0x04]) →
      (∀ j, i ≤ j → j < i + n → layout_okb layout j = true) →
      erase_database_from layout d i (n + fuel)
        = ((List.range' i n).flatMap (erase_iter d)
            ++ (erase_database_from layout d (i + n) fuel).1,
           (erase_database_from layout d (i + n) fuel).2) := by
  induction n with
  | zero =>
    intro i fuel _ _ _
    simp [List.range']
  | succ n ih =>
    intro i fuel hc he hl
    have hci : d.cardResp i = [0x00] := hc i le_rfl (by omega)
    have hei : d.eraseResp (i + 1) = [0x04] := he i le_rfl (by omega)
    have hli : layout_okb layout i = true := hl i le_rfl (by omega)
    have hstep : n + 1 + fuel = (n + fuel) + 1 := by omega
    have hrec := ih (i + 1) fuel
      (fun j h1 h2 => hc j (by omega) (by omega))
      (fun j h1 h2 => he j (by omega) (by omega))
      (fun j h1 h2 => hl j (by omega) (by omega))
    rw [hstep]
    simp only [erase_database_from, hci, has_card_present,
      select_page_ev_ok layout i hli, hei, erase_page_chk_ok]
    rw [hrec]
    have h1n : i + 1 + n = i + (n + 1) := by omega
    have hrange : List.range' i (n + 1) = i :: List.range' (i + 1) n :=
      List.range'_succ i n 1
    rw [h1n, hrange]
    simp [erase_iter, loop_helper_evs, List.append_assoc]

/-- The `before_read` priming events of a trace. -/
def isBeforeRead : Ev → Bool
  | .beforeRead => true
  | _ => false

/-- The `before_write` priming events of a trace. -/
def isBeforeWrite : Ev → Bool
  | .beforeWrite => true
  | _ => false

lemma countP_flatMap_one (p : Ev → Bool) (f : Nat → List Ev) (l : List Nat)
    (h : ∀ j ∈ l, (f j).countP p = 1) :
    (l.flatMap f).countP p = l.length := by
  induction l with
  | nil => simp
  | cons a l ih =>
    rw [List.flatMap_cons, List.countP_append, h a (by simp),
      ih (fun j hj => h j (by simp [hj]))]
    simp [Nat.add_comm]

lemma countP_flatMap_zero (p : Ev → Bool) (f : Nat → List Ev) (l : List Nat)
    (h : ∀ j ∈ l, (f j).countP p = 0) :
    (l.flatMap f).countP p = 0 := by
  induction l with
  | nil => simp
  | cons a l ih =>
    rw [List.flatMap_cons, List.countP_append, h a (by simp),
      ih (fun j hj => h j (by simp [hj]))]

lemma filterMap_flatMap_eq {β : Type} (sel : Ev → Option β) (f : Nat → List Ev)
    (g : Nat → List β) (l : List Nat)
    (h : ∀ j ∈ l, (f j).filterMap sel = g j) :
    (l.flatMap f).filterMap sel = l.flatMap g := by
  induction l with
  | nil => simp
  | cons a l ih =>
    rw [List.flatMap_cons, List.flatMap_cons, List.filterMap_append, h a (by simp),
      ih (fun j hj => h j (by simp [hj]))]

lemma ccc_append (slack : Nat) (a b : List Ev)
    (ha : cardChecksCoverBlockOps slack a)
    (hb : ∀ n, (b.take n).countP isBlockOp + a.countP isBlockOp
            ≤ (b.take n).countP isCardQuery + a.countP isCardQuery + slack) :
    cardChecksCoverBlockOps slack (a ++ b) := by
  intro n
  rw [List.take_append_eq_append_take, List.countP_append, List.countP_append]
  rcases le_or_lt n a.length with h | h
  · have hz : n - a.length = 0 := by omega
    rw [hz]
    simpa using ha n
  · rw [List.take_of_length_le (by omega)]
    have := hb (n - a.length)
    omega

lemma ccc_append_chunk (slack : Nat) (a b : List Ev)
    (ha : cardChecksCoverBlockOps slack a)
    (hae : a.countP isBlockOp = a.countP isCardQuery)
    (hb : cardChecksCoverBlockOps slack b) :
    cardChecksCoverBlockOps slack (a ++ b) :=
  ccc_append slack a b ha (fun n => by have := hb n; omega)

lemma ccc_of_total (slack : Nat) (t : List Ev)
    (h : t.countP isBlockOp ≤ slack) :
    cardChecksCoverBlockOps slack t := by
  intro n
  have := (List.take_sublist n t).countP_le isBlockOp
  omega

lemma ccc_of_shape (pre : List Ev) (resp : List Nat) (rest : List Ev)
    (hpre : pre.countP isBlockOp = 0)
    (hrest : rest.countP isBlockOp ≤ 1) :
    cardChecksCoverBlockOps 0 (pre ++ Ev.hasCard resp :: rest) := by
  intro n
  rw [List.take_append_eq_append_take, List.countP_append, List.countP_append]
  have h1 : (pre.take n).countP isBlockOp = 0 :=
    Nat.le_zero.mp (hpre ▸ (List.take_sublist n pre).countP_le isBlockOp)
  cases hnp : n - pre.length with
  | zero => simp [h1]
  | succ k =>
    rw [List.take_succ_cons, List.countP_cons, List.countP_cons]
    have h2 : (rest.take k).countP isBlockOp ≤ 1 :=
      le_trans ((List.take_sublist k rest).countP_le isBlockOp) hrest
    simp [h1, isBlockOp, isCardQuery]
    omega

lemma ccc_flatMap_chunks (l : List Nat) (f : Nat → List Ev) (tail : List Ev)
    (h : ∀ j ∈ l, cardChecksCoverBlockOps 0 (f j)
          ∧ (f j).countP isBlockOp = (f j).countP isCardQuery)
    (htail : cardChecksCoverBlockOps 0 tail) :
    cardChecksCoverBlockOps 0 (l.flatMap f ++ tail) := by
  induction l with
  | nil => simpa using htail
  | cons a l ih =>
    rw [List.flatMap_cons, List.append_assoc]
    exact ccc_append_chunk 0 (f a) (l.flatMap f ++ tail)
      (h a (by simp)).1 (h a (by simp)).2
      (ih (fun j hj => h j (by simp [hj])))

lemma ccc_cons_neutral (slack : Nat) (e : Ev) (t : List Ev)
    (he : isBlockOp e = false) (ht : cardChecksCoverBlockOps slack t) :
    cardChecksCoverBlockOps slack (e :: t) := by
  intro n
  cases n with
  | zero => simp
  | succ k =>
    rw [List.take_succ_cons, List.countP_cons, List.countP_cons]
    have := ht k
    simp [he]
    rcases hq : isCardQuery e <;> simp [hq] <;> omega

lemma read_iter_counts (d : Dev) (i : Nat) :
    (read_iter d i).countP isCardQuery = 1
      ∧ (read_iter d i).countP isBlockOp = 1
      ∧ (read_iter d i).countP isBeforeRead = 0
      ∧ fdWrites (read_iter d i) = [d.block i] := by
  cases h16 : (i % BLOCKS_PER_PAGE == 0) <;>
    simp [read_iter, loop_helper_evs, h16, isCardQuery, isBlockOp, isBeforeRead,
      fdWrites, List.countP_cons, List.countP_append, List.filterMap_append]

lemma read_iter_ccc (d : Dev) (i : Nat) :
    cardChecksCoverBlockOps 0 (read_iter d i) := by
  have hshape : read_iter d i
      = [Ev.setLed (i % 2 == 0)] ++ Ev.hasCard (d.cardResp i)
          :: ((if i % BLOCKS_PER_PAGE == 0 then
                [Ev.selectPage (i / BLOCKS_PER_PAGE)] else [])
              ++ [.readBlock (d.block i), .fdWrite (d.block i),
                  .progress (d.block i).length]) := by
    simp [read_iter, loop_helper_evs]
  rw [hshape]
  refine ccc_of_shape _ _ _ rfl ?_
  cases h16 : (i % BLOCKS_PER_PAGE == 0) <;>
    simp [h16, isBlockOp, List.countP_cons, List.countP_append]

lemma write_iter_counts (d : Dev) (fd : Nat → List Nat) (i : Nat) :
    (write_iter d fd i).countP isCardQuery = 1
      ∧ (write_iter d fd i).countP isBlockOp = 1
      ∧ (write_iter d fd i).countP isBeforeWrite = 0
      ∧ selectArgs (write_iter d fd i)
          = (if i % BLOCKS_PER_PAGE == 0 then [i / BLOCKS_PER_PAGE] else []) := by
  cases h16 : (i % BLOCKS_PER_PAGE == 0) <;>
    simp [write_iter, loop_helper_evs, h16, isCardQuery, isBlockOp, isBeforeWrite,
      selectArgs, List.countP_cons, List.countP_append, List.filterMap_append]

lemma write_iter_ccc (d : Dev) (fd : Nat → List Nat) (i : Nat) :
    cardChecksCoverBlockOps 0 (write_iter d fd i) := by
  have hshape : write_iter d fd i
      = [Ev.fdRead (fd i), Ev.setLed (i % 2 == 0)] ++ Ev.hasCard (d.cardResp i)
          :: ((if i % BLOCKS_PER_PAGE == 0 then
                [Ev.selectPage (i / BLOCKS_PER_PAGE)] else [])
              ++ [.writeBlock (ljust (fd i) BLOCK_SIZE 0xFF),
                  .progress (ljust (fd i) BLOCK_SIZE 0xFF).length]) := by
    simp [write_iter, loop_helper_evs]
  rw [hshape]
  refine ccc_of_shape _ _ _ rfl ?_
  cases h16 : (i % BLOCKS_PER_PAGE == 0) <;>
    simp [h16, isBlockOp, List.countP_cons, List.countP_append]

lemma verify_iter_counts (d : Dev) (fd : Nat → List Nat) (i : Nat) :
    (verify_iter d fd i).countP isCardQuery = 1
      ∧ (verify_iter d fd i).countP isBlockOp = 1
      ∧ (verify_iter d fd i).countP isBeforeRead = 0
      ∧ selectArgs (verify_iter d fd i)
          = (if i % BLOCKS_PER_PAGE == 0 then [i / BLOCKS_PER_PAGE] else []) := by
  cases h16 : (i % BLOCKS_PER_PAGE == 0) <;>
    simp [verify_iter, loop_helper_evs, h16, isCardQuery, isBlockOp, isBeforeRead,
      selectArgs, List.countP_cons, List.countP_append, List.filterMap_append]

lemma verify_iter_ccc (d : Dev) (fd : Nat → List Nat) (i : Nat) :
    cardChecksCoverBlockOps 0 (verify_iter d fd i) := by
  have hshape : verify_iter d fd i
      = [Ev.fdRead (fd i), Ev.setLed (i % 2 == 0)] ++ Ev.hasCard (d.cardResp i)
          :: ((if i % BLOCKS_PER_PAGE == 0 then
                [Ev.selectPage (i / BLOCKS_PER_PAGE)] else [])
              ++ [.readBlock (d.block i),
                  .progress (ljust (fd i) BLOCK_SIZE 0xFF).length]) := by
    simp [verify_iter, loop_helper_evs]
  rw [hshape]
  refine ccc_of_shape _ _ _ rfl ?_
  cases h16 : (i % BLOCKS_PER_PAGE == 0) <;>
    simp [h16, isBlockOp, List.countP_cons, List.countP_append]

lemma erase_iter_counts (d : Dev) (i : Nat) :
    (erase_iter d i).countP isCardQuery = 1
      ∧ (erase_iter d i).countP isBlockOp = 1
      ∧ (erase_iter d i).countP isBeforeWrite = 0
      ∧ selectArgs (erase_iter d i) = [i] := by
  simp [erase_iter, loop_helper_evs, isCardQuery, isBlockOp, isBeforeWrite,
    selectArgs, List.countP_cons, List.countP_append, List.filterMap_append]

lemma erase_iter_ccc (d : Dev) (i : Nat) :
    cardChecksCoverBlockOps 0 (erase_iter d i) := by
  have hshape : erase_iter d i
      = [Ev.setLed (i % 2 == 0)] ++ Ev.hasCard (d.cardResp i)
          :: [Ev.selectPage i, .erasePage, .progress PAGE_SIZE] := by
    simp [erase_iter, loop_helper_evs]
  rw [hshape]
  exact ccc_of_shape _ _ _ rfl (by simp [isBlockOp, List.countP_cons])

lemma read_database_abort (layout : List Nat) (d : Dev) (pages i : Nat)
    (hc : ∀ j, j < i → d.cardResp j = [0x00])
    (hfail : d.cardResp i = [0x01])
    (hb : ∀ j, j < i → d.block j ≠ ffBlock)
    (hl : ∀ j, j < i → layout_okb layout (j / BLOCKS_PER_PAGE) = true)
    (hi : i < pages * BLOCKS_PER_PAGE) :
    read_database layout d pages
      = (Ev.beforeRead :: ((List.range i).flatMap (read_iter d)
          ++ [Ev.setLed (i % 2 == 0), Ev.hasCard [0x01]]),
         .error .cardDisappeared) := by
  unfold read_database
  obtain ⟨f, hf⟩ : ∃ f, pages * BLOCKS_PER_PAGE - i = f + 1 :=
    ⟨pages * BLOCKS_PER_PAGE - i - 1, by omega⟩
  have hsplit : pages * BLOCKS_PER_PAGE = i + (f + 1) := by omega
  rw [hsplit]
  have hrun := read_database_from_run layout d i 0 (f + 1)
    (fun j h1 h2 => hc j (by omega))
    (fun j h1 h2 => hb j (by omega))
    (fun j h1 h2 => hl j (by omega))
  rw [hrun]
  simp only [Nat.zero_add, read_database_from, hfail, has_card_absent,
    loop_helper_evs, List.range_eq_range', hfail]

lemma write_database_abort (layout : List Nat) (d : Dev) (fd : Nat → List Nat)
    (pages i : Nat)
    (hc : ∀ j, j < i → d.cardResp j = [0x00])
    (hfail : d.cardResp i = [0x01])
    (hf : ∀ j, j < i → (fd j).length ≤ BLOCK_SIZE)
    (hw : ∀ j, j < i →
      d.writeResp j = (ljust (fd j) BLOCK_SIZE 0xFF).getLastD 0 :: [0x00, 0x00, 0x00])
    (hl : ∀ j, j < i → layout_okb layout (j / BLOCKS_PER_PAGE) = true)
    (hi : i < pages * BLOCKS_PER_PAGE) :
    write_database layout d fd pages
      = (Ev.beforeWrite :: ((List.range i).flatMap (write_iter d fd)
          ++ [Ev.fdRead (fd i), Ev.setLed (i % 2 == 0), Ev.hasCard [0x01]]),
         .error .cardDisappeared) := by
  unfold write_database
  obtain ⟨g, hg⟩ : ∃ g, pages * BLOCKS_PER_PAGE - i = g + 1 :=
    ⟨pages * BLOCKS_PER_PAGE - i - 1, by omega⟩
  have hsplit : pages * BLOCKS_PER_PAGE = i + (g + 1) := by omega
  rw [hsplit]
  have hrun := write_database_from_run layout d fd i 0 (g + 1)
    (fun j h1 h2 => hc j (by omega))
    (fun j h1 h2 => hf j (by omega))
    (fun j h1 h2 => hw j (by omega))
    (fun j h1 h2 => hl j (by omega))
  rw [hrun]
  simp only [Nat.zero_add, write_database_from, hfail, has_card_absent,
    loop_helper_evs, List.range_eq_range', hfail]

lemma verify_database_abort (layout : List Nat) (d : Dev) (fd : Nat → List Nat)
    (pages i : Nat)
    (hc : ∀ j, j < i → d.cardResp j = [0x00])
    (hfail : d.cardResp i = [0x01])
    (hv : ∀ j, j < i → d.block j = ljust (fd j) BLOCK_SIZE 0xFF)
    (hl : ∀ j, j < i → layout_okb layout (j / BLOCKS_PER_PAGE) = true)
    (hi : i < pages * BLOCKS_PER_PAGE) :
    verify_database layout d fd pages
      = (Ev.beforeRead :: ((List.range i).flatMap (verify_iter d fd)
          ++ [Ev.fdRead (fd i), Ev.setLed (i % 2 == 0), Ev.hasCard [0x01]]),
         .error .cardDisappeared) := by
  unfold verify_database
  obtain ⟨g, hg⟩ : ∃ g, pages * BLOCKS_PER_PAGE - i = g + 1 :=
    ⟨pages * BLOCKS_PER_PAGE - i - 1, by omega⟩
  have hsplit : pages * BLOCKS_PER_PAGE = i + (g + 1) := by omega
  rw [hsplit]
  have hrun := verify_database_from_run layout d fd i 0 (g + 1)
    (fun j h1 h2 => hc j (by omega))
    (fun j h1 h2 => hv j (by omega))
    (fun j h1 h2 => hl j (by omega))
  rw [hrun]
  simp only [Nat.zero_add, verify_database_from, hfail, has_card_absent,
    loop_helper_evs, List.range_eq_range', hfail]

lemma erase_database_abort (layout : List Nat) (d : Dev) (pages i : Nat)
    (hc : ∀ j, j < i → d.cardResp j = [0x00])
    (hfail : d.cardResp i = [0x01])
    (he : ∀ j, j ≤ i → d.eraseResp j = [0x04])
    (hl : ∀ j, j < i → layout_okb layout j = true)
    (hlast : layout_okb layout (get_total_pages layout - 1) = true)
    (hi : i < pages) :
    erase_database layout d pages
      = (Ev.beforeWrite :: (Ev.selectPage (get_total_pages layout - 1)
          :: Ev.erasePage
          :: ((List.range i).flatMap (erase_iter d)
              ++ [Ev.setLed (i % 2 == 0), Ev.hasCard [0x01]])),
         .error .cardDisappeared) := by
  unfold erase_database
  rw [select_page_ev_ok layout _ hlast]
  rw [he 0 (by omega), erase_page_chk_ok]
  obtain ⟨g, hg⟩ : ∃ g, pages - i = g + 1 := ⟨pages - i - 1, by omega⟩
  have hsplit : pages = i + (g + 1) := by omega
  rw [hsplit]
  have hrun := erase_database_from_run layout d i 0 (g + 1)
    (fun j h1 h2 => hc j (by omega))
    (fun j h1 h2 => he (j + 1) (by omega))
    (fun j h1 h2 => hl j (by omega))
  rw [hrun]
  simp only [Nat.zero_add, erase_database_from, hfail, has_card_absent,
    loop_helper_evs, List.range_eq_range', hfail]
  simp

lemma ccc_succ_cons (e : Ev) (t : List Ev)
    (ht : cardChecksCoverBlockOps 0 t) :
    cardChecksCoverBlockOps 1 (e :: t) := by
  intro n
  cases n with
  | zero => simp
  | succ k =>
    rw [List.take_succ_cons, List.countP_cons, List.countP_cons]
    have := ht k
    rcases hbe : isBlockOp e <;> rcases hqe : isCardQuery e <;>
      simp [hbe, hqe] <;> omega

set_option maxHeartbeats 1000000 in
/-- Claim C2: in every bulk operation (`read_database`, `write_database`,
`verify_database`, `erase_database`), once the card-presence responses are
good for iterations below `i` and absent at iteration `i` (and the other
device responses let the earlier iterations complete), the operation's trace
is exactly the completed iterations `0..i-1` followed by the failing check,
the outcome is the card-disappeared fault, the presence query ran on all
`i + 1` iterations, the block I/O count is exactly the completed iterations
(`i`, plus the initial last-page erase for `erase_database`), and at every
point of the trace the block I/O operations never outnumber the presence
checks (up to the initial erase for `erase_database`), so no block I/O
happens past iteration `i`.  The three block-level operations iterate over
`pages * 16` blocks, so for them `i` ranges over `i < pages * 16`;
`erase_database` iterates over `pages` pages, so its removal iteration `ie`
(with its own device responses `de`) ranges over `ie < pages`. -/
theorem claim_C2_card_removal_abort
    (layout : List Nat) (d de : Dev) (fd : Nat → List Nat) (pages i ie : Nat)
    (hc : ∀ j, j < i → d.cardResp j = [0x00])
    (hfail : d.cardResp i = [0x01])
    (hb : ∀ j, j < i → d.block j ≠ ffBlock)
    (hv : ∀ j, j < i → d.block j = ljust (fd j) BLOCK_SIZE 0xFF)
    (hf : ∀ j, j < i → (fd j).length ≤ BLOCK_SIZE)
    (hw : ∀ j, j < i →
      d.writeResp j = (ljust (fd j) BLOCK_SIZE 0xFF).getLastD 0 :: [0x00, 0x00, 0x00])
    (hl1 : ∀ j, j < i → layout_okb layout (j / BLOCKS_PER_PAGE) = true)
    (hi : i < pages * BLOCKS_PER_PAGE)
    (hce : ∀ j, j < ie → de.cardResp j = [0x00])
    (hfaile : de.cardResp ie = [0x01])
    (he : ∀ j, j ≤ ie → de.eraseResp j = [0x04])
    (hl2 : ∀ j, j < ie → layout_okb layout j = true)
    (hlast : layout_okb layout (get_total_pages layout - 1) = true)
    (hie : ie < pages) :
    (read_database layout d pages
        = (Ev.beforeRead :: ((List.range i).flatMap (read_iter d)
            ++ [Ev.setLed (i % 2 == 0), Ev.hasCard [0x01]]),
           .error .cardDisappeared)
      ∧ (read_database layout d pages).1.countP isCardQuery = i + 1
      ∧ (read_database layout d pages).1.countP isBlockOp = i
      ∧ cardChecksCoverBlockOps 0 (read_database layout d pages).1)
    ∧ (write_database layout d fd pages
        = (Ev.beforeWrite :: ((List.range i).flatMap (write_iter d fd)
            ++ [Ev.fdRead (fd i), Ev.setLed (i % 2 == 0), Ev.hasCard [0x01]]),
           .error .cardDisappeared)
      ∧ (write_database layout d fd pages).1.countP isCardQuery = i + 1
      ∧ (write_database layout d fd pages).1.countP isBlockOp = i
      ∧ cardChecksCoverBlockOps 0 (write_database layout d fd pages).1)
    ∧ (verify_database layout d fd pages
        = (Ev.beforeRead :: ((List.range i).flatMap (verify_iter d fd)
            ++ [Ev.fdRead (fd i), Ev.setLed (i % 2 == 0), Ev.hasCard [0x01]]),
           .error .cardDisappeared)
      ∧ (verify_database layout d fd pages).1.countP isCardQuery = i + 1
      ∧ (verify_database layout d fd pages).1.countP isBlockOp = i
      ∧ cardChecksCoverBlockOps 0 (verify_database layout d fd pages).1)
    ∧ (erase_database layout de pages
        = (Ev.beforeWrite :: (Ev.selectPage (get_total_pages layout - 1)
            :: Ev.erasePage
            :: ((List.range ie).flatMap (erase_iter de)
                ++ [Ev.setLed (ie % 2 == 0), Ev.hasCard [0x01]])),
           .error .cardDisappeared)
      ∧ (erase_database layout de pages).1.countP isCardQuery = ie + 1
      ∧ (erase_database layout de pages).1.countP isBlockOp = ie + 1
      ∧ cardChecksCoverBlockOps 1 (erase_database layout de pages).1) := by
  have hR := read_database_abort layout d pages i hc hfail hb hl1 hi
  have hW := write_database_abort layout d fd pages i hc hfail hf hw hl1 hi
  have hV := verify_database_abort layout d fd pages i hc hfail hv hl1 hi
  have hE := erase_database_abort layout de pages ie hce hfaile he hl2 hlast hie
  refine ⟨⟨hR, ?_, ?_, ?_⟩, ⟨hW, ?_, ?_, ?_⟩, ⟨hV, ?_, ?_, ?_⟩, ⟨hE, ?_, ?_, ?_⟩⟩
  · simp [hR, List.countP_cons, List.countP_append, isCardQuery,
      countP_flatMap_one isCardQuery (read_iter d) (List.range i)
        (fun j _ => (read_iter_counts d j).1)]
  · simp [hR, List.countP_cons, List.countP_append, isCardQuery, isBlockOp,
      countP_flatMap_one isBlockOp (read_iter d) (List.range i)
        (fun j _ => (read_iter_counts d j).2.1)]
  · simp only [hR]
    exact ccc_cons_neutral 0 _ _ rfl
      (ccc_flatMap_chunks _ _ _
        (fun j _ => ⟨read_iter_ccc d j,
          ((read_iter_counts d j).2.1).trans ((read_iter_counts d j).1).symm⟩)
        (ccc_of_total 0 _ (by simp [isBlockOp, List.countP_cons])))
  · simp [hW, List.countP_cons, List.countP_append, isCardQuery,
      countP_flatMap_one isCardQuery (write_iter d fd) (List.range i)
        (fun j _ => (write_iter_counts d fd j).1)]
  · simp [hW, List.countP_cons, List.countP_append, isCardQuery, isBlockOp,
      countP_flatMap_one isBlockOp (write_iter d fd) (List.range i)
        (fun j _ => (write_iter_counts d fd j).2.1)]
  · simp only [hW]
    exact ccc_cons_neutral 0 _ _ rfl
      (ccc_flatMap_chunks _ _ _
        (fun j _ => ⟨write_iter_ccc d fd j,
          ((write_iter_counts d fd j).2.1).trans ((write_iter_counts d fd j).1).symm⟩)
        (ccc_of_total 0 _ (by simp [isBlockOp, List.countP_cons])))
  · simp [hV, List.countP_cons, List.countP_append, isCardQuery,
      countP_flatMap_one isCardQuery (verify_iter d fd) (List.range i)
        (fun j _ => (verify_iter_counts d fd j).1)]
  · simp [hV, List.countP_cons, List.countP_append, isCardQuery, isBlockOp,
      countP_flatMap_one isBlockOp (verify_iter d fd) (List.range i)
        (fun j _ => (verify_iter_counts d fd j).2.1)]
  · simp only [hV]
    exact ccc_cons_neutral 0 _ _ rfl
      (ccc_flatMap_chunks _ _ _
        (fun j _ => ⟨verify_iter_ccc d fd j,
          ((verify_iter_counts d fd j).2.1).trans ((verify_iter_counts d fd j).1).symm⟩)
        (ccc_of_total 0 _ (by simp [isBlockOp, List.countP_cons])))
  · simp [hE, List.countP_cons, List.countP_append, isCardQuery, isBlockOp,
      countP_flatMap_one isCardQuery (erase_iter de) (List.range ie)
        (fun j _ => (erase_iter_counts de j).1)]
  · simp [hE, List.countP_cons, List.countP_append, isCardQuery, isBlockOp,
      countP_flatMap_one isBlockOp (erase_iter de) (List.range ie)
        (fun j _ => (erase_iter_counts de j).2.1)]
  · simp only [hE]
    refine ccc_cons_neutral 1 _ _ rfl (ccc_cons_neutral 1 _ _ rfl ?_)
    refine ccc_succ_cons _ _ ?_
    exact ccc_flatMap_chunks _ _ _
      (fun j _ => ⟨erase_iter_ccc de j,
        ((erase_iter_counts de j).2.1).trans ((erase_iter_counts de j).1).symm⟩)
      (ccc_of_total 0 _ (by simp [isBlockOp, List.countP_cons]))

/-- Concrete device oracle for the C2 witness, block-level operations: the
card is present at iterations 0..2 and gone from iteration 3 on; blocks read
back as a `0x01` byte padded with `0xFF`; write responses are the expected
ones. -/
def witDevC2 : Dev where
  cardResp := fun j => if j < 3 then [0x00] else [0x01]
  block := fun _ => ljust [0x01] BLOCK_SIZE 0xFF
  writeResp := fun _ => (ljust [0x01] BLOCK_SIZE 0xFF).getLastD 0 :: [0x00, 0x00, 0x00]
  eraseResp := fun _ => [0x04]

/-- Concrete device oracle for the C2 witness, erase: the card is gone at
iteration 0; erase responses are the expected ones. -/
def witDevE : Dev where
  cardResp := fun _ => [0x01]
  block := fun _ => ljust [0x01] BLOCK_SIZE 0xFF
  writeResp := fun _ => [0x00]
  eraseResp := fun _ => [0x04]

/-- Concrete input stream for the witnesses: every read yields one `0x01` byte. -/
def witFd : Nat → List Nat := fun _ => [0x01]

/-- Witness for C2: in a 1-page transfer on a 4MB card, removal at block 3
(an iteration beyond the page count) aborts read, write, and verify, and
removal at page 0 aborts erase, all with the card-disappeared fault. -/
theorem claim_C2_card_removal_abort_witness :
    (∀ j, j < 3 → witDevC2.cardResp j = [0x00]) ∧ witDevC2.cardResp 3 = [0x01] ∧
    witDevE.cardResp 0 = [0x01] ∧
    (read_database MEMORY_LAYOUT_4MB witDevC2 1).2 = .error .cardDisappeared ∧
    (write_database MEMORY_LAYOUT_4MB witDevC2 witFd 1).2 = .error .cardDisappeared ∧
    (verify_database MEMORY_LAYOUT_4MB witDevC2 witFd 1).2 = .error .cardDisappeared ∧
    (erase_database MEMORY_LAYOUT_4MB witDevE 1).2 = .error .cardDisappeared := by
  have h := claim_C2_card_removal_abort MEMORY_LAYOUT_4MB witDevC2 witDevE witFd 1 3 0
    (by decide) (by decide) (by decide)
    (fun j hj => rfl) (by decide) (fun j hj => rfl)
    (by decide) (by decide)
    (by decide) (by decide) (fun j hj => rfl) (by decide) (by decide) (by decide)
  exact ⟨by decide, by decide, by decide, by rw [h.1.1], by rw [h.2.1.1],
    by rw [h.2.2.1.1], by rw [h.2.2.2.1]⟩

lemma fdWrites_flatMap (f : Nat → List Ev) (g : Nat → List (List Nat))
    (l : List Nat) (h : ∀ j ∈ l, fdWrites (f j) = g j) :
    fdWrites (l.flatMap f) = l.flatMap g :=
  filterMap_flatMap_eq _ f g l h

lemma selectArgs_flatMap (f : Nat → List Ev) (g : Nat → List Nat)
    (l : List Nat) (h : ∀ j ∈ l, selectArgs (f j) = g j) :
    selectArgs (l.flatMap f) = l.flatMap g :=
  filterMap_flatMap_eq _ f g l h

lemma flatMap_single_map {α β : Type} (l : List α) (f : α → β) :
    l.flatMap (fun a => [f a]) = l.map f := by
  induction l with
  | nil => rfl
  | cons a l ih => simp [ih]

lemma read_database_stop (layout : List Nat) (d : Dev) (pages k : Nat)
    (hc : ∀ j, j ≤ k → d.cardResp j = [0x00])
    (hb : ∀ j, j < k → d.block j ≠ ffBlock)
    (hk : d.block k = ffBlock)
    (hl : ∀ j, j ≤ k → layout_okb layout (j / BLOCKS_PER_PAGE) = true)
    (hkp : k < pages * BLOCKS_PER_PAGE) :
    read_database layout d pages
      = (Ev.beforeRead :: ((List.range k).flatMap (read_iter d)
          ++ ([Ev.setLed (k % 2 == 0), Ev.hasCard [0x00]]
              ++ (if k % BLOCKS_PER_PAGE == 0 then
                    [Ev.selectPage (k / BLOCKS_PER_PAGE)] else [])
              ++ [Ev.readBlock ffBlock])),
         .ok ()) := by
  unfold read_database
  obtain ⟨f, hf⟩ : ∃ f, pages * BLOCKS_PER_PAGE - k = f + 1 :=
    ⟨pages * BLOCKS_PER_PAGE - k - 1, by omega⟩
  have hsplit : pages * BLOCKS_PER_PAGE = k + (f + 1) := by omega
  rw [hsplit]
  have hrun := read_database_from_run layout d k 0 (f + 1)
    (fun j h1 h2 => hc j (by omega))
    (fun j h1 h2 => hb j (by omega))
    (fun j h1 h2 => hl j (by omega))
  rw [hrun]
  simp only [Nat.zero_add, read_database_from, hc k le_rfl, has_card_present,
    sel_if_eq layout k (hl k le_rfl), hk, if_pos, loop_helper_evs,
    List.range_eq_range', hc k le_rfl]

set_option maxHeartbeats 1000000 in
/-- Claim C3: when blocks `0..k-1` read back as not-all-`0xFF` and block `k`
as all-`0xFF` (with `k` below the requested `pages * 16`), `read_database`
issues `before_read` exactly once, writes exactly blocks `0..k-1` to the
output stream in order (not the all-`0xFF` block), terminates successfully at
iteration `k` — only `k + 1` card queries, i.e. before reaching `pages * 16`
iterations — and its whole trace is the completed iterations `0..k-1` plus
the final partial iteration that reads the all-`0xFF` block. -/
theorem claim_C3_read_trailing_ff_stop
    (layout : List Nat) (d : Dev) (pages k : Nat)
    (hc : ∀ j, j ≤ k → d.cardResp j = [0x00])
    (hb : ∀ j, j < k → d.block j ≠ ffBlock)
    (hk : d.block k = ffBlock)
    (hl : ∀ j, j ≤ k → layout_okb layout (j / BLOCKS_PER_PAGE) = true)
    (hkp : k < pages * BLOCKS_PER_PAGE) :
    read_database layout d pages
      = (Ev.beforeRead :: ((List.range k).flatMap (read_iter d)
          ++ ([Ev.setLed (k % 2 == 0), Ev.hasCard [0x00]]
              ++ (if k % BLOCKS_PER_PAGE == 0 then
                    [Ev.selectPage (k / BLOCKS_PER_PAGE)] else [])
              ++ [Ev.readBlock ffBlock])),
         .ok ())
    ∧ fdWrites (read_database layout d pages).1 = (List.range k).map d.block
    ∧ (read_database layout d pages).1.countP isCardQuery = k + 1
    ∧ (read_database layout d pages).1.countP isBeforeRead = 1
    ∧ k + 1 ≤ pages * BLOCKS_PER_PAGE := by
  have hS := read_database_stop layout d pages k hc hb hk hl hkp
  have hfdcons : ∀ t, fdWrites (Ev.beforeRead :: t) = fdWrites t := fun t => rfl
  have hfdapp : ∀ a b : List Ev, fdWrites (a ++ b) = fdWrites a ++ fdWrites b :=
    fun a b => List.filterMap_append a b _
  refine ⟨hS, ?_, ?_, ?_, by omega⟩
  · simp only [hS]
    rw [hfdcons, hfdapp]
    rw [fdWrites_flatMap (read_iter d) (fun j => [d.block j]) (List.range k)
      (fun j _ => (read_iter_counts d j).2.2.2)]
    rw [flatMap_single_map]
    cases h16 : (k % BLOCKS_PER_PAGE == 0) <;>
      simp [h16, fdWrites, List.filterMap_append, List.filterMap_cons]
  · simp [hS, List.countP_cons, List.countP_append, isCardQuery,
      countP_flatMap_one isCardQuery (read_iter d) (List.range k)
        (fun j _ => (read_iter_counts d j).1)]
  · simp [hS, List.countP_cons, List.countP_append, isBeforeRead,
      countP_flatMap_zero isBeforeRead (read_iter d) (List.range k)
        (fun j _ => (read_iter_counts d j).2.2.1)]

/-- Device oracle for the C3 witness: the card is always present, blocks 0
and 1 are data, block 2 and later read back as all-`0xFF`. -/
def witDevStop : Dev where
  cardResp := fun _ => [0x00]
  block := fun j => if j < 2 then ljust [0x01] BLOCK_SIZE 0xFF else ffBlock
  writeResp := fun _ => [0x00]
  eraseResp := fun _ => [0x00]

/-- Witness for C3 at `k = 2`, one requested page. -/
theorem claim_C3_read_trailing_ff_stop_witness :
    witDevStop.block 2 = ffBlock ∧
    (∀ j, j < 2 → witDevStop.block j ≠ ffBlock) ∧
    fdWrites (read_database MEMORY_LAYOUT_4MB witDevStop 1).1
      = (List.range 2).map witDevStop.block ∧
    (read_database MEMORY_LAYOUT_4MB witDevStop 1).2 = .ok () := by
  have h := claim_C3_read_trailing_ff_stop MEMORY_LAYOUT_4MB witDevStop 1 2
    (by decide) (by decide) rfl (by decide) (by decide)
  exact ⟨rfl, by decide, h.2.1, by rw [h.1]⟩

lemma write_database_ok (layout : List Nat) (d : Dev) (fd : Nat → List Nat)
    (pages : Nat)
    (hc : ∀ j, j < pages * BLOCKS_PER_PAGE → d.cardResp j = [0x00])
    (hf : ∀ j, j < pages * BLOCKS_PER_PAGE → (fd j).length ≤ BLOCK_SIZE)
    (hw : ∀ j, j < pages * BLOCKS_PER_PAGE →
      d.writeResp j = (ljust (fd j) BLOCK_SIZE 0xFF).getLastD 0 :: [0x00, 0x00, 0x00])
    (hl : ∀ j, j < pages * BLOCKS_PER_PAGE →
      layout_okb layout (j / BLOCKS_PER_PAGE) = true) :
    write_database layout d fd pages
      = (Ev.beforeWrite
          :: (List.range (pages * BLOCKS_PER_PAGE)).flatMap (write_iter d fd),
         .ok ()) := by
  unfold write_database
  have hrun := write_database_from_run layout d fd (pages * BLOCKS_PER_PAGE) 0 0
    (fun j h1 h2 => hc j (by omega))
    (fun j h1 h2 => hf j (by omega))
    (fun j h1 h2 => hw j (by omega))
    (fun j h1 h2 => hl j (by omega))
  rw [show pages * BLOCKS_PER_PAGE = pages * BLOCKS_PER_PAGE + 0 from rfl, hrun]
  simp [write_database_from, List.range_eq_range']

lemma verify_database_ok (layout : List Nat) (d : Dev) (fd : Nat → List Nat)
    (pages : Nat)
    (hc : ∀ j, j < pages * BLOCKS_PER_PAGE → d.cardResp j = [0x00])
    (hv : ∀ j, j < pages * BLOCKS_PER_PAGE → d.block j = ljust (fd j) BLOCK_SIZE 0xFF)
    (hl : ∀ j, j < pages * BLOCKS_PER_PAGE →
      layout_okb layout (j / BLOCKS_PER_PAGE) = true) :
    verify_database layout d fd pages
      = (Ev.beforeRead
          :: (List.range (pages * BLOCKS_PER_PAGE)).flatMap (verify_iter d fd),
         .ok ()) := by
  unfold verify_database
  have hrun := verify_database_from_run layout d fd (pages * BLOCKS_PER_PAGE) 0 0
    (fun j h1 h2 => hc j (by omega))
    (fun j h1 h2 => hv j (by omega))
    (fun j h1 h2 => hl j (by omega))
  rw [show pages * BLOCKS_PER_PAGE = pages * BLOCKS_PER_PAGE + 0 from rfl, hrun]
  simp [verify_database_from, List.range_eq_range']

lemma select_boundary_flatMap (pages : Nat) :
    (List.range (pages * BLOCKS_PER_PAGE)).flatMap
        (fun j => if j % BLOCKS_PER_PAGE == 0 then [j / BLOCKS_PER_PAGE] else [])
      = List.range pages := by
  induction pages with
  | zero => simp
  | succ p ih =>
    have hmul : (p + 1) * BLOCKS_PER_PAGE = p * BLOCKS_PER_PAGE + 16 := by
      simp only [BLOCKS_PER_PAGE]
      omega
    rw [hmul, List.range_add, List.flatMap_append, ih]
    have h16 : List.range 16 = [0, 1, 2, 3, 4, 5, 6, 7, 8, 9, 10, 11, 12, 13, 14, 15] := rfl
    rw [h16]
    simp [BLOCKS_PER_PAGE, Nat.mul_add_mod, Nat.mul_mod_left, Nat.mul_div_cancel,
      List.range_succ]
    omega

set_option maxHeartbeats 1000000 in
/-- Claim C9: over a bulk write or verify of `N = pages * 16` blocks (with
good responses throughout), the trace is exactly the `N` completed
iterations, the operation succeeds, and the logical pages passed to
`select_page` are exactly `0, 1, ..., pages - 1` in order — `select_page` is
invoked exactly `pages = ceil(N/16)` times, each time at the iteration
`i` with `i % 16 = 0` and argument `i / 16`, immediately before that page's
first block command (as the per-iteration event lists show). -/
theorem claim_C9_page_boundary_reselection
    (layout : List Nat) (d : Dev) (fd : Nat → List Nat) (pages : Nat)
    (hc : ∀ j, j < pages * BLOCKS_PER_PAGE → d.cardResp j = [0x00])
    (hf : ∀ j, j < pages * BLOCKS_PER_PAGE → (fd j).length ≤ BLOCK_SIZE)
    (hw : ∀ j, j < pages * BLOCKS_PER_PAGE →
      d.writeResp j = (ljust (fd j) BLOCK_SIZE 0xFF).getLastD 0 :: [0x00, 0x00, 0x00])
    (hv : ∀ j, j < pages * BLOCKS_PER_PAGE → d.block j = ljust (fd j) BLOCK_SIZE 0xFF)
    (hl : ∀ j, j < pages * BLOCKS_PER_PAGE →
      layout_okb layout (j / BLOCKS_PER_PAGE) = true) :
    (write_database layout d fd pages
        = (Ev.beforeWrite
            :: (List.range (pages * BLOCKS_PER_PAGE)).flatMap (write_iter d fd),
           .ok ())
      ∧ selectArgs (write_database layout d fd pages).1 = List.range pages
      ∧ (selectArgs (write_database layout d fd pages).1).length = pages)
    ∧ (verify_database layout d fd pages
        = (Ev.beforeRead
            :: (List.range (pages * BLOCKS_PER_PAGE)).flatMap (verify_iter d fd),
           .ok ())
      ∧ selectArgs (verify_database layout d fd pages).1 = List.range pages
      ∧ (selectArgs (verify_database layout d fd pages).1).length = pages) := by
  have hW := write_database_ok layout d fd pages hc hf hw hl
  have hV := verify_database_ok layout d fd pages hc hv hl
  have hsaW : selectArgs (write_database layout d fd pages).1 = List.range pages := by
    simp only [hW]
    rw [show selectArgs (Ev.beforeWrite
        :: (List.range (pages * BLOCKS_PER_PAGE)).flatMap (write_iter d fd))
      = selectArgs ((List.range (pages * BLOCKS_PER_PAGE)).flatMap (write_iter d fd))
      from rfl]
    rw [selectArgs_flatMap (write_iter d fd)
      (fun j => if j % BLOCKS_PER_PAGE == 0 then [j / BLOCKS_PER_PAGE] else [])
      (List.range (pages * BLOCKS_PER_PAGE))
      (fun j _ => (write_iter_counts d fd j).2.2.2)]
    exact select_boundary_flatMap pages
  have hsaV : selectArgs (verify_database layout d fd pages).1 = List.range pages := by
    simp only [hV]
    rw [show selectArgs (Ev.beforeRead
        :: (List.range (pages * BLOCKS_PER_PAGE)).flatMap (verify_iter d fd))
      = selectArgs ((List.range (pages * BLOCKS_PER_PAGE)).flatMap (verify_iter d fd))
      from rfl]
    rw [selectArgs_flatMap (verify_iter d fd)
      (fun j => if j % BLOCKS_PER_PAGE == 0 then [j / BLOCKS_PER_PAGE] else [])
      (List.range (pages * BLOCKS_PER_PAGE))
      (fun j _ => (verify_iter_counts d fd j).2.2.2)]
    exact select_boundary_flatMap pages
  exact ⟨⟨hW, hsaW, by rw [hsaW]; simp⟩, ⟨hV, hsaV, by rw [hsaV]; simp⟩⟩

/-- Device oracle for the success-path witnesses: card always present, every
block reads back as the `0x01`-then-`0xFF` pad (matching `witFd`), write and
erase responses are the expected ones. -/
def witDevOk : Dev where
  cardResp := fun _ => [0x00]
  block := fun _ => ljust [0x01] BLOCK_SIZE 0xFF
  writeResp := fun _ => (ljust [0x01] BLOCK_SIZE 0xFF).getLastD 0 :: [0x00, 0x00, 0x00]
  eraseResp := fun _ => [0x04]

/-- Witness for C9: one page written and verified on a 4MB card selects
exactly page 0 once, in both operations. -/
theorem claim_C9_page_boundary_reselection_witness :
    selectArgs (write_database MEMORY_LAYOUT_4MB witDevOk witFd 1).1 = List.range 1 ∧
    (write_database MEMORY_LAYOUT_4MB witDevOk witFd 1).2 = .ok () ∧
    selectArgs (verify_database MEMORY_LAYOUT_4MB witDevOk witFd 1).1 = List.range 1 ∧
    (verify_database MEMORY_LAYOUT_4MB witDevOk witFd 1).2 = .ok () := by
  have h := claim_C9_page_boundary_reselection MEMORY_LAYOUT_4MB witDevOk witFd 1
    (by decide) (by decide) (fun j hj => rfl) (fun j hj => rfl) (by decide)
  exact ⟨h.1.2.1, by rw [h.1.1], h.2.2.1, by rw [h.2.1]⟩

lemma erase_database_ok (layout : List Nat) (d : Dev) (pages : Nat)
    (hc : ∀ j, j < pages → d.cardResp j = [0x00])
    (he : ∀ j, j ≤ pages → d.eraseResp j = [0x04])
    (hl : ∀ j, j < pages → layout_okb layout j = true)
    (hlast : layout_okb layout (get_total_pages layout - 1) = true) :
    erase_database layout d pages
      = (Ev.beforeWrite :: Ev.selectPage (get_total_pages layout - 1)
          :: Ev.erasePage :: (List.range pages).flatMap (erase_iter d),
         .ok ()) := by
  unfold erase_database
  rw [select_page_ev_ok layout _ hlast, he 0 (by omega), erase_page_chk_ok]
  have hrun := erase_database_from_run layout d pages 0 0
    (fun j h1 h2 => hc j (by omega))
    (fun j h1 h2 => he (j + 1) (by omega))
    (fun j h1 h2 => hl j (by omega))
  rw [show pages = pages + 0 from rfl, hrun]
  simp [erase_database_from, List.range_eq_range']

set_option maxHeartbeats 1000000 in
/-- Claim C4: for every `N ≥ 0` (with good responses), `erase_database`
issues `before_write` exactly once, then erases the card's final logical page
`get_total_pages() - 1` before any other erase, then issues one `erase_page`
per logical page `0..N-1` in ascending order: the pages passed to
`select_page` are exactly `total - 1, 0, 1, ..., N - 1` and there are exactly
`N + 1` block-erase commands. -/
theorem claim_C4_erase_ordering (layout : List Nat) (d : Dev) (pages : Nat)
    (hc : ∀ j, j < pages → d.cardResp j = [0x00])
    (he : ∀ j, j ≤ pages → d.eraseResp j = [0x04])
    (hl : ∀ j, j < pages → layout_okb layout j = true)
    (hlast : layout_okb layout (get_total_pages layout - 1) = true) :
    erase_database layout d pages
      = (Ev.beforeWrite :: Ev.selectPage (get_total_pages layout - 1)
          :: Ev.erasePage :: (List.range pages).flatMap (erase_iter d),
         .ok ())
    ∧ selectArgs (erase_database layout d pages).1
        = (get_total_pages layout - 1) :: List.range pages
    ∧ (erase_database layout d pages).1.countP isBlockOp = pages + 1
    ∧ (erase_database layout d pages).1.countP isBeforeWrite = 1 := by
  have hE := erase_database_ok layout d pages hc he hl hlast
  refine ⟨hE, ?_, ?_, ?_⟩
  · simp only [hE]
    rw [show selectArgs (Ev.beforeWrite :: Ev.selectPage (get_total_pages layout - 1)
        :: Ev.erasePage :: (List.range pages).flatMap (erase_iter d))
      = (get_total_pages layout - 1)
          :: selectArgs ((List.range pages).flatMap (erase_iter d)) from rfl]
    rw [selectArgs_flatMap (erase_iter d) (fun j => [j]) (List.range pages)
      (fun j _ => (erase_iter_counts d j).2.2.2)]
    rw [flatMap_single_map (List.range pages) (fun j => j)]
    simp
  · simp [hE, List.countP_cons, isBlockOp,
      countP_flatMap_one isBlockOp (erase_iter d) (List.range pages)
        (fun j _ => (erase_iter_counts d j).2.1)]
  · simp [hE, List.countP_cons, isBeforeWrite,
      countP_flatMap_zero isBeforeWrite (erase_iter d) (List.range pages)
        (fun j _ => (erase_iter_counts d j).2.2.1)]

/-- Witness for C4: erasing 2 pages of a 4MB card selects page 63 (the card's
last page) first, then pages 0 and 1. -/
theorem claim_C4_erase_ordering_witness :
    selectArgs (erase_database MEMORY_LAYOUT_4MB witDevOk 2).1
      = (get_total_pages MEMORY_LAYOUT_4MB - 1) :: List.range 2 ∧
    (erase_database MEMORY_LAYOUT_4MB witDevOk 2).2 = .ok () ∧
    get_total_pages MEMORY_LAYOUT_4MB - 1 = 63 := by
  have h := claim_C4_erase_ordering MEMORY_LAYOUT_4MB witDevOk 2
    (by decide) (fun j hj => rfl) (by decide) (by decide)
  exact ⟨h.2.1, by rw [h.1], by decide⟩

/-- Little-endian `int.from_bytes(buf, "little")`. -/
def intFromBytesLE (bs : List Nat) : Nat :=
  bs.foldr (fun b acc => b + 0x100 * acc) 0

/-- `SkyboundDevice.init_data_card`: raise the card-missing error when the
card is absent; `select_page(0)` and `before_read` (and `get_iid`, which
repeats both before reading the IID); decode the IID little-endian; map the
two known IIDs to their memory layouts; raise the unknown-card error for any
other IID, leaving the layout unchanged.  Returns the resulting memory
layout together with the outcome. -/
def init_data_card (cardResp iidResp : List Nat) (layout : List Nat) :
    List Nat × Except PErr Unit :=
  match has_card cardResp with
  | .error e => (layout, .error e)
  | .ok false => (layout, .error .cardMissing)
  | .ok true =>
    match select_page_chk layout 0 with
    | .error e => (layout, .error e)
    | .ok _ =>
      match select_page_chk layout 0 with
      | .error e => (layout, .error e)
      | .ok _ =>
        let iid := intFromBytesLE iidResp
        if iid = 0x01004100 then (MEMORY_LAYOUT_16MB, .ok ())
        else if iid = 0x0100ad00 then (MEMORY_LAYOUT_4MB, .ok ())
        else (layout, .error (.unknownIid iid))

/-- Claim C6: with the card present, `init_data_card` maps IID `0x01004100`
to the 8-group 16MB-WAAS layout and IID `0x0100ad00` to the 2-group
4MB-non-WAAS layout, raises the fatal unknown-card error for every other IID
leaving the layout unchanged, and after a successful mapping the total page
count is the layout length times `0x20` (0x100 pages for 16MB, 0x40 for 4MB). -/
theorem claim_C6_init_data_card (layout : List Nat) (iidResp : List Nat)
    (hsel : layout_okb layout 0 = true) :
    (intFromBytesLE iidResp = 0x01004100 →
      init_data_card [0x00] iidResp layout = (MEMORY_LAYOUT_16MB, .ok ())
        ∧ get_total_pages MEMORY_LAYOUT_16MB = MEMORY_LAYOUT_16MB.length * 0x20
        ∧ get_total_pages MEMORY_LAYOUT_16MB = 0x100)
    ∧ (intFromBytesLE iidResp = 0x0100ad00 →
      init_data_card [0x00] iidResp layout = (MEMORY_LAYOUT_4MB, .ok ())
        ∧ get_total_pages MEMORY_LAYOUT_4MB = MEMORY_LAYOUT_4MB.length * 0x20
        ∧ get_total_pages MEMORY_LAYOUT_4MB = 0x40)
    ∧ (intFromBytesLE iidResp ≠ 0x01004100 → intFromBytesLE iidResp ≠ 0x0100ad00 →
      init_data_card [0x00] iidResp layout
        = (layout, .error (.unknownIid (intFromBytesLE iidResp)))) := by
  obtain ⟨t, _, _, hchk⟩ := select_page_chk_of_okb layout 0 hsel
  refine ⟨fun h1 => ?_, fun h1 => ?_, fun h1 h2 => ?_⟩
  · exact ⟨by simp [init_data_card, has_card_present, hchk, h1], by decide, by decide⟩
  · exact ⟨by simp [init_data_card, has_card_present, hchk, h1], by decide, by decide⟩
  · simp [init_data_card, has_card_present, hchk, h1, h2]

/-- Witness for C6: the 16MB IID bytes map to the 16MB layout, and a zero
IID raises the unknown-card error leaving the default layout unchanged. -/
theorem claim_C6_init_data_card_witness :
    layout_okb MEMORY_LAYOUT_UNKNOWN 0 = true ∧
    intFromBytesLE [0x00, 0x41, 0x00, 0x01] = 0x01004100 ∧
    init_data_card [0x00] [0x00, 0x41, 0x00, 0x01] MEMORY_LAYOUT_UNKNOWN
      = (MEMORY_LAYOUT_16MB, .ok ()) ∧
    init_data_card [0x00] [] MEMORY_LAYOUT_UNKNOWN
      = (MEMORY_LAYOUT_UNKNOWN, .error (.unknownIid 0)) := by
  have h16 := (claim_C6_init_data_card MEMORY_LAYOUT_UNKNOWN
    [0x00, 0x41, 0x00, 0x01] (by decide)).1 (by decide)
  have hun := ((claim_C6_init_data_card MEMORY_LAYOUT_UNKNOWN
    [] (by decide)).2.2) (by decide) (by decide)
  exact ⟨by decide, by decide, h16.1, by simpa using hun⟩

/-- Observable session-lifecycle events of `open_programming_device` and
`_open_usb_device`. -/
inductive SEv where
  | claimInterface
  | resetDevice
  | releaseInterface
  | devInit
  | initDataCard
  | bodyRun
  | ledOff
  | handleClose
deriving Repr, DecidableEq

/-- The block `open_programming_device` runs inside `_open_usb_device`:
`dev.init()`, then (when a data card is required) `dev.init_data_card()`,
both outside any `try`; then `try: yield dev / finally: dev.close()` — so
`dev.close()` (which forces the LED off) runs whether or not the yielded
body faults, but not when `init` or `init_data_card` faults.  The `Bool`
result is `true` when the block completed without an exception.  The flags
say which stage faults (identification, card initialization, or the yielded
body). -/
def device_session_body (needCard initFails cardInitFails bodyFails : Bool) :
    List SEv × Bool :=
  if initFails then ([.devInit], false)
  else if needCard && cardInitFails then ([.devInit, .initDataCard], false)
  else
    (([SEv.devInit] ++ (if needCard then [SEv.initDataCard] else []))
      ++ [.bodyRun, .ledOff], !bodyFails)

/-- `_open_usb_device`: claim interface 0, reset the device, run the body.
The `with handle.claimInterface(0)` block releases the interface on every
exit path, but `handle.close()` is written after the `with` block rather
than in a `finally`, so it runs only when the body did not raise. -/
def open_usb_device_trace (body : List SEv × Bool) : List SEv × Bool :=
  ([SEv.claimInterface, SEv.resetDevice] ++ body.1 ++ [SEv.releaseInterface]
    ++ (if body.2 then [SEv.handleClose] else []), body.2)

/-- `open_programming_device` once a Skybound device has been found: the
session block run inside `_open_usb_device`. -/
def open_programming_device_trace
    (needCard initFails cardInitFails bodyFails : Bool) : List SEv × Bool :=
  open_usb_device_trace
    (device_session_body needCard initFails cardInitFails bodyFails)

/-- Claim C5 fails on the code: on normal completion LED-off and
handle-close each happen once, but when `init_data_card` faults (e.g. an
unknown card IID) neither happens — `dev.close()` is outside the
`try/finally` and `handle.close()` is skipped when an exception propagates
through the `with` block — and when the yielded body faults the LED is
turned off but the handle is never closed. -/
theorem claim_C5_teardown_not_guaranteed :
    ((open_programming_device_trace true false false false).1.count SEv.ledOff = 1
      ∧ (open_programming_device_trace true false false false).1.count SEv.handleClose = 1)
    ∧ ((open_programming_device_trace true false true false).1.count SEv.ledOff = 0
      ∧ (open_programming_device_trace true false true false).1.count SEv.handleClose = 0)
    ∧ ((open_programming_device_trace true true false false).1.count SEv.ledOff = 0
      ∧ (open_programming_device_trace true true false false).1.count SEv.handleClose = 0)
    ∧ ((open_programming_device_trace true false false true).1.count SEv.ledOff = 1
      ∧ (open_programming_device_trace true false false true).1.count SEv.handleClose = 0) := by
  decide

end JdmTool
